import Mathlib

/-!
Verification development for the policy-set and template-linking core of the
repository (file `cedar-policy-core/src/ast/policy_set.rs`).

`PolicySet` and its operations (`new`, `add`, `add_static`, `add_template`,
`link`, `try_from_iter`, the query operations, and the conversions to and from
`LiteralPolicySet`) are translated directly from that source file.  The
collaborator types it imports (`PolicyID`, `SlotId`, `EntityUID`, `Template`,
`StaticPolicy`, `Policy`, `LiteralPolicy`, the linking primitives
`Template::link` and `Template::link_static_policy`, and
`LiteralPolicy::reify`) are not part of the available sources; they are
modelled from the specification, as noted on each such definition.

Rust `HashMap`s are modelled as association lists; the operations only ever
insert at a key they have checked to be vacant, exactly as the source does
through the `Entry` API, so list insertion keeps key sets duplicate-free and
iteration order stands in for the unspecified hash-map iteration order.
Mutating operations, which take `&mut self` in Rust and may return early with
an error, are modelled in state-passing style: each returns the pair of the
`Result` and the final state, so that atomicity (the state returned alongside
an error equals the input state) is a provable property of the translation.
-/

/-- Policy identifiers are opaque string-like values compared by exact string
equality (spec section 3). -/
abbrev PolicyID := String

/-- Modelled from the spec: `SlotId` is the closed set of placeholder
positions usable inside a template, principal-slot and resource-slot. -/
inductive SlotId where
  | principal
  | resource
deriving DecidableEq, Repr

/-- Modelled from the spec: `EntityUID` values are opaque entity identifiers;
this core only moves them around, so an opaque string stands in for them. -/
abbrev EntityUID := String

/-- Modelled from the spec: a slot environment is a mapping from `SlotId` to
`EntityUID`.  Since `SlotId` is a closed two-element set, a total function
into `Option EntityUID` represents the finite map exactly. -/
abbrev SlotEnv := SlotId → Option EntityUID

/-- The empty slot environment: no slot is bound. -/
def SlotEnv.empty : SlotEnv := fun _ => none

/-- A slot environment is empty when it binds no slot. -/
def SlotEnv.isEmpty (env : SlotEnv) : Bool :=
  (env SlotId.principal).isNone && (env SlotId.resource).isNone

instance slotEnvDecEq : DecidableEq SlotEnv := fun e1 e2 =>
  if hp : e1 SlotId.principal = e2 SlotId.principal then
    if hr : e1 SlotId.resource = e2 SlotId.resource then
      isTrue (funext fun sl => by cases sl
                                  · exact hp
                                  · exact hr)
    else isFalse fun h => hr (congrFun h SlotId.resource)
  else isFalse fun h => hp (congrFun h SlotId.principal)

/-- Modelled from the spec: a `Template` carries its own `PolicyID`, a set of
slots (derived from its constraints), and an immutable body (effect,
principal/action/resource constraints and condition expression).  The body
components are outside this core and are abstracted into a single opaque
`body` token; only their equality is ever consulted by the policy-set code. -/
structure Template where
  id : PolicyID
  slots : List SlotId
  body : Nat
deriving DecidableEq, Repr

/-- Modelled from the spec: a `StaticPolicy` is structurally a zero-slot
template, so it is its id together with the same opaque body token. -/
structure StaticPolicy where
  id : PolicyID
  body : Nat
deriving DecidableEq, Repr

/-- Modelled from the spec: a `Policy` (link) is its own `PolicyID`, a shared
reference to its template, and the environment binding the template slots.
Sharing is not observable in a pure model, so the template is held by value. -/
structure Policy where
  id : PolicyID
  template : Template
  env : SlotEnv
deriving DecidableEq

/-- Modelled from the spec: `Policy::is_static` holds exactly when the
environment is empty. -/
def Policy.is_static (p : Policy) : Bool :=
  p.env.isEmpty

/-- Modelled from the spec: a `LiteralPolicy` is the flat
`(template_id, env, id)` triple a link degrades to in the serialized form. -/
structure LiteralPolicy where
  template_id : PolicyID
  env : SlotEnv
  id : PolicyID
deriving DecidableEq

/-- The error type of `PolicySet` insertion operations: a duplicate template
or policy id (`PolicySetError::Occupied` in the source). -/
inductive PolicySetError where
  | occupied (id : PolicyID)
deriving DecidableEq, Repr

/-- The error type of `PolicySet::link`.  `noSuchTemplate` and
`policyIdConflict` are raised by the policy set itself; `slotMismatch` is
modelled from the spec as the collaborator error of the template-linking
primitive (environment key set differs from the template slot set),
propagated unchanged. -/
inductive LinkingError where
  | noSuchTemplate (id : PolicyID)
  | policyIdConflict (id : PolicyID)
  | slotMismatch
deriving DecidableEq, Repr

/-- Modelled from the spec: reification fails by naming the missing template
id referenced by a literal link. -/
inductive ReificationError where
  | noSuchTemplate (id : PolicyID)
deriving DecidableEq, Repr

/-- Association-list model of the Rust `HashMap<PolicyID, _>`, holding its
key-value bindings in iteration order. -/
structure PMap (α : Type) where
  kvs : List (PolicyID × α)
deriving DecidableEq

/-- Lookup of the first binding of a key in the association list. -/
def pmapFind {α : Type} : List (PolicyID × α) → PolicyID → Option α
  | [], _ => none
  | (k', v) :: rest, k => if k' = k then some v else pmapFind rest k

/-- Lookup in the map. -/
def PMap.find? {α : Type} (m : PMap α) (k : PolicyID) : Option α :=
  pmapFind m.kvs k

/-- Insertion into the map.  The source only ever inserts through a vacant
`Entry`, so insertion never shadows an existing binding. -/
def PMap.insert {α : Type} (m : PMap α) (k : PolicyID) (v : α) : PMap α :=
  ⟨(k, v) :: m.kvs⟩

/-- The values of the map, in iteration order. -/
def PMap.values {α : Type} (m : PMap α) : List α :=
  m.kvs.map Prod.snd

/-- Emptiness of the map. -/
def PMap.isEmpty {α : Type} (m : PMap α) : Bool :=
  m.kvs.isEmpty

/-- Modelled from the spec: `Template::link_static_policy` totally converts a
static policy into the pair of a zero-slot template with the same id and a
`Policy` link with the same id and an empty environment. -/
def Template.link_static_policy (p : StaticPolicy) : Template × Policy :=
  let t : Template := { id := p.id, slots := [], body := p.body }
  (t, { id := p.id, template := t, env := SlotEnv.empty })

/-- A slot environment matches a slot list when the bound slots are exactly
the listed ones. -/
def SlotEnv.matchesSlots (env : SlotEnv) (slots : List SlotId) : Prop :=
  ∀ sl : SlotId, (env sl).isSome ↔ sl ∈ slots

instance (env : SlotEnv) (slots : List SlotId) :
    Decidable (SlotEnv.matchesSlots env slots) :=
  decidable_of_iff
    (((env SlotId.principal).isSome ↔ SlotId.principal ∈ slots) ∧
      ((env SlotId.resource).isSome ↔ SlotId.resource ∈ slots))
    (by constructor
        · intro h sl
          cases sl
          · exact h.1
          · exact h.2
        · intro h
          exact ⟨h SlotId.principal, h SlotId.resource⟩)

/-- Modelled from the spec: `Template::link` validates that the environment
key set exactly equals the template slot set and produces the `Policy`;
otherwise it fails with the slot-mismatch error. -/
def Template.link (t : Template) (newId : PolicyID) (values : SlotEnv) :
    Except LinkingError Policy :=
  if SlotEnv.matchesSlots values t.slots then
    Except.ok { id := newId, template := t, env := values }
  else
    Except.error LinkingError.slotMismatch

/-- The policy set: a template map and a link map
(struct `PolicySet` in the source). -/
structure PolicySet where
  templates : PMap Template
  links : PMap Policy
deriving DecidableEq

/-- The serialization surface: a template map and a literal-link map with no
invariant enforced (struct `LiteralPolicySet` in the source). -/
structure LiteralPolicySet where
  templates : PMap Template
  links : PMap LiteralPolicy
deriving DecidableEq

/-- Create a fresh empty `PolicySet` (`PolicySet::new`). -/
def PolicySet.new : PolicySet :=
  { templates := ⟨[]⟩, links := ⟨[]⟩ }

/-- Add a `Policy` to the `PolicySet` (`PolicySet::add`).  The source stages
the two vacant entries, returning early with `Occupied` when the template
entry is occupied with different content or when the link entry is occupied,
and commits both insertions only after both checks pass. -/
def PolicySet.add (s : PolicySet) (policy : Policy) :
    Except PolicySetError Unit × PolicySet :=
  let t := policy.template
  match s.templates.find? t.id with
  | some existing =>
    if existing = t then
      match s.links.find? policy.id with
      | some _ => (Except.error (PolicySetError.occupied policy.id), s)
      | none =>
        (Except.ok (), { s with links := s.links.insert policy.id policy })
    else
      (Except.error (PolicySetError.occupied t.id), s)
  | none =>
    match s.links.find? policy.id with
    | some _ => (Except.error (PolicySetError.occupied policy.id), s)
    | none =>
      (Except.ok (),
        { templates := s.templates.insert t.id t,
          links := s.links.insert policy.id policy })

/-- Add a `StaticPolicy` to the `PolicySet` (`PolicySet::add_static`): derive
the template and link, require both maps vacant at the shared id (template
map checked first), then insert both entries. -/
def PolicySet.add_static (s : PolicySet) (policy : StaticPolicy) :
    Except PolicySetError Unit × PolicySet :=
  let tp := Template.link_static_policy policy
  let t := tp.1
  let p := tp.2
  match s.templates.find? t.id, s.links.find? t.id with
  | none, none =>
    (Except.ok (),
      { templates := s.templates.insert t.id t,
        links := s.links.insert t.id p })
  | some _, _ => (Except.error (PolicySetError.occupied t.id), s)
  | none, some _ => (Except.error (PolicySetError.occupied t.id), s)

/-- Add a template to the policy set (`PolicySet::add_template`): requires
only the template map to be vacant at the template id. -/
def PolicySet.add_template (s : PolicySet) (t : Template) :
    Except PolicySetError Unit × PolicySet :=
  match s.templates.find? t.id with
  | some _ => (Except.error (PolicySetError.occupied t.id), s)
  | none => (Except.ok (), { s with templates := s.templates.insert t.id t })

/-- Lookup a template by policy id (`PolicySet::get_template`; the `Arc`
clone is the identity in this model). -/
def PolicySet.get_template (s : PolicySet) (id : PolicyID) : Option Template :=
  s.templates.find? id

/-- Lookup a policy by policy id (`PolicySet::get`). -/
def PolicySet.get (s : PolicySet) (id : PolicyID) : Option Policy :=
  s.links.find? id

/-- Create a template-linked policy and add it to the set
(`PolicySet::link`): resolve the template, delegate to the linking primitive,
require both maps vacant at the new id (otherwise `PolicyIdConflict`), then
insert the produced policy into the link map only and return it. -/
def PolicySet.link (s : PolicySet) (templateId : PolicyID) (newId : PolicyID)
    (values : SlotEnv) : Except LinkingError Policy × PolicySet :=
  match s.get_template templateId with
  | none => (Except.error (LinkingError.noSuchTemplate templateId), s)
  | some t =>
    match Template.link t newId values with
    | Except.error e => (Except.error e, s)
    | Except.ok r =>
      match s.links.find? newId, s.templates.find? newId with
      | none, none => (Except.ok r, { s with links := s.links.insert newId r })
      | some _, _ => (Except.error (LinkingError.policyIdConflict newId), s)
      | none, some _ => (Except.error (LinkingError.policyIdConflict newId), s)

/-- Iterate over all policies (`PolicySet::policies`). -/
def PolicySet.policies (s : PolicySet) : List Policy :=
  s.links.values

/-- Iterate over everything stored as a template, including the zero-slot
templates backing static policies (`PolicySet::all_templates`). -/
def PolicySet.all_templates (s : PolicySet) : List Template :=
  s.templates.values

/-- Iterate over templates with slots (the `templates` method of the source;
named differently here because `templates` is the field projection). -/
def PolicySet.slotted_templates (s : PolicySet) : List Template :=
  s.all_templates.filter (fun t => t.slots.length != 0)

/-- Iterate over all of the static policies (`PolicySet::static_policies`). -/
def PolicySet.static_policies (s : PolicySet) : List Policy :=
  s.policies.filter (fun p => p.is_static)

/-- Returns true iff the `PolicySet` is empty (`PolicySet::is_empty`). -/
def PolicySet.is_empty (s : PolicySet) : Bool :=
  s.templates.isEmpty && s.links.isEmpty

/-- Fold `PolicySet.add` over a list, stopping at the first error (the loop
body of `PolicySet::try_from_iter`). -/
def PolicySet.addAll (s : PolicySet) : List Policy → Except PolicySetError PolicySet
  | [] => Except.ok s
  | p :: rest =>
    match s.add p with
    | (Except.error e, _) => Except.error e
    | (Except.ok _, s') => s'.addAll rest

/-- Collect an iterator of policies into a `PolicySet`
(`PolicySet::try_from_iter`): fold `add` from the empty set; the first
failure aborts the whole call, so the caller never observes a partial set. -/
def PolicySet.try_from_iter (ps : List Policy) : Except PolicySetError PolicySet :=
  PolicySet.new.addAll ps

/-- A `Policy` degraded to its literal triple (the `Policy → LiteralPolicy`
conversion used by `From<PolicySet> for LiteralPolicySet`). -/
def Policy.toLiteral (p : Policy) : LiteralPolicy :=
  { template_id := p.template.id, env := p.env, id := p.id }

/-- `From<PolicySet> for LiteralPolicySet`: unwrap the template handles by
value and degrade every link to its literal triple. -/
def PolicySet.toLiteral (s : PolicySet) : LiteralPolicySet :=
  { templates := s.templates,
    links := ⟨s.links.kvs.map (fun e => (e.1, e.2.toLiteral))⟩ }

/-- Modelled from the spec: `LiteralPolicy::reify` resolves the literal link
against the template map; if its `template_id` is missing the conversion
fails with a `ReificationError` naming the missing id, otherwise it produces
the live `Policy` bound to the found template. -/
def LiteralPolicy.reify (lp : LiteralPolicy) (templates : PMap Template) :
    Except ReificationError Policy :=
  match templates.find? lp.template_id with
  | none => Except.error (ReificationError.noSuchTemplate lp.template_id)
  | some t => Except.ok { id := lp.id, template := t, env := lp.env }

/-- Reify every literal link against the template map, stopping at the first
failure (the `collect::<Result<HashMap<_, _>, _>>()` of the source). -/
def reifyLinks (templates : PMap Template) :
    List (PolicyID × LiteralPolicy) → Except ReificationError (List (PolicyID × Policy))
  | [] => Except.ok []
  | (id, lp) :: rest =>
    match lp.reify templates with
    | Except.error e => Except.error e
    | Except.ok p =>
      match reifyLinks templates rest with
      | Except.error e => Except.error e
      | Except.ok rest' => Except.ok ((id, p) :: rest')

/-- `TryFrom<LiteralPolicySet> for PolicySet`: allocate the templates (the
`Arc` allocation is the identity here) and reify every link against them;
any failure aborts the whole conversion. -/
def PolicySet.tryFromLiteral (pset : LiteralPolicySet) :
    Except ReificationError PolicySet :=
  match reifyLinks pset.templates pset.links.kvs with
  | Except.error e => Except.error e
  | Except.ok links => Except.ok { templates := pset.templates, links := ⟨links⟩ }

/-- The cross-map invariant of the specification (section 3, invariant 1):
every stored link refers to a template stored in the template map under the
template's own id with identical content. -/
def PolicySet.Inv (s : PolicySet) : Prop :=
  ∀ e ∈ s.links.kvs, s.templates.find? e.2.template.id = some e.2.template

/-- The template map is keyed consistently: every stored template sits under
its own id.  Every operation of this core inserts templates only at their own
id, so this holds for every set reachable through the API. -/
def PolicySet.TemplatesKeyedById (s : PolicySet) : Prop :=
  ∀ e ∈ s.templates.kvs, (e.2 : Template).id = e.1

/-- Well-formedness: consistently keyed templates plus the cross-map
invariant. -/
def PolicySet.WF (s : PolicySet) : Prop :=
  s.TemplatesKeyedById ∧ s.Inv

instance (s : PolicySet) : Decidable s.Inv :=
  List.decidableBAll _ s.links.kvs

instance (s : PolicySet) : Decidable s.TemplatesKeyedById :=
  List.decidableBAll _ s.templates.kvs

instance (s : PolicySet) : Decidable s.WF :=
  instDecidableAnd

/-! Concrete example values, used to instantiate the general theorems below
at explicit inputs. -/

/-- A zero-slot template with id `t0`. -/
def exTmpl0 : Template := { id := "t0", slots := [], body := 0 }

/-- A zero-slot template with id `t0` and different content. -/
def exTmpl0' : Template := { id := "t0", slots := [], body := 1 }

/-- A link with id `l0` to `exTmpl0` with an empty environment. -/
def exPol0 : Policy := { id := "l0", template := exTmpl0, env := SlotEnv.empty }

/-- The set holding exactly `exTmpl0` and `exPol0` (the result of adding
`exPol0` to the empty set). -/
def exSet1 : PolicySet :=
  { templates := ⟨[("t0", exTmpl0)]⟩, links := ⟨[("l0", exPol0)]⟩ }

/-- A template with one principal slot and id `tp`. -/
def exTmplP : Template := { id := "tp", slots := [SlotId.principal], body := 0 }

/-- The set holding only the slotted template `exTmplP`. -/
def exSetP : PolicySet := { templates := ⟨[("tp", exTmplP)]⟩, links := ⟨[]⟩ }

/-- The set holding only the zero-slot template `exTmpl0`. -/
def exSetT0 : PolicySet := { templates := ⟨[("t0", exTmpl0)]⟩, links := ⟨[]⟩ }

/-- An environment binding exactly the principal slot. -/
def exEnvP : SlotEnv := fun sl =>
  match sl with
  | SlotId.principal => some "E"
  | SlotId.resource => none

/-- A literal policy set whose one link resolves to its one template. -/
def exLitGood : LiteralPolicySet :=
  { templates := ⟨[("t0", exTmpl0)]⟩,
    links := ⟨[("l0", { template_id := "t0", env := SlotEnv.empty, id := "l0" })]⟩ }

/-- A literal policy set whose one link dangles: no template `t0` exists. -/
def exLitDangling : LiteralPolicySet :=
  { templates := ⟨[]⟩,
    links := ⟨[("l0", { template_id := "t0", env := SlotEnv.empty, id := "l0" })]⟩ }

/-- A literal policy set whose template map stores under key `a` a template
whose own id is `b`, and whose one link references key `a`.  Reification
succeeds on it but the result violates the cross-map invariant. -/
def exLitMiskeyed : LiteralPolicySet :=
  { templates := ⟨[("a", { id := "b", slots := [], body := 0 })]⟩,
    links := ⟨[("l", { template_id := "a", env := SlotEnv.empty, id := "l" })]⟩ }

/-- A set whose link map is keyed at `t0` while its template map is empty. -/
def exSetLinkAtT0 : PolicySet :=
  { templates := ⟨[]⟩,
    links := ⟨[("t0", { id := "t0", template := exTmpl0, env := SlotEnv.empty })]⟩ }

theorem pmapFind_cons {α : Type} (k' : PolicyID) (v : α)
    (rest : List (PolicyID × α)) (k : PolicyID) :
    pmapFind ((k', v) :: rest) k = if k' = k then some v else pmapFind rest k := rfl

theorem pmapFind_mem {α : Type} {m : List (PolicyID × α)} {k : PolicyID} {v : α}
    (h : pmapFind m k = some v) : (k, v) ∈ m := by
  induction m with
  | nil => simp [pmapFind] at h
  | cons e rest ih =>
    obtain ⟨k', v'⟩ := e
    rw [pmapFind_cons] at h
    by_cases hk : k' = k
    · simp [hk] at h
      simp [hk, h]
    · simp [hk] at h
      exact List.mem_cons_of_mem _ (ih h)

/-! Case-characterization lemmas for the mutating operations.  Each lemma
fixes the outcome of one branch of the source control flow; the claim
theorems below package them. -/

theorem Template.link_ok_shape {t : Template} {newId : PolicyID} {values : SlotEnv}
    {r : Policy} (h : Template.link t newId values = Except.ok r) :
    r = { id := newId, template := t, env := values } := by
  unfold Template.link at h
  split at h
  · exact (Except.ok.injEq _ _ ▸ h).symm
  · exact absurd h (by simp)

theorem Template.link_ok_of_matches {t : Template} {newId : PolicyID} {values : SlotEnv}
    (h : SlotEnv.matchesSlots values t.slots) :
    Template.link t newId values = Except.ok { id := newId, template := t, env := values } := by
  unfold Template.link
  simp [h]

theorem add_case_tmpl_diff {s : PolicySet} {p : Policy} {ex : Template}
    (h1 : s.templates.find? p.template.id = some ex) (h2 : ex ≠ p.template) :
    s.add p = (Except.error (PolicySetError.occupied p.template.id), s) := by
  simp [PolicySet.add, h1, h2]

theorem add_case_link_occupied_present {s : PolicySet} {p : Policy} {q : Policy}
    (h1 : s.templates.find? p.template.id = some p.template)
    (h2 : s.links.find? p.id = some q) :
    s.add p = (Except.error (PolicySetError.occupied p.id), s) := by
  simp [PolicySet.add, h1, h2]

theorem add_case_ok_present {s : PolicySet} {p : Policy}
    (h1 : s.templates.find? p.template.id = some p.template)
    (h2 : s.links.find? p.id = none) :
    s.add p = (Except.ok (), { s with links := s.links.insert p.id p }) := by
  simp [PolicySet.add, h1, h2]

theorem add_case_link_occupied_fresh {s : PolicySet} {p : Policy} {q : Policy}
    (h1 : s.templates.find? p.template.id = none)
    (h2 : s.links.find? p.id = some q) :
    s.add p = (Except.error (PolicySetError.occupied p.id), s) := by
  simp [PolicySet.add, h1, h2]

theorem add_case_ok_fresh {s : PolicySet} {p : Policy}
    (h1 : s.templates.find? p.template.id = none)
    (h2 : s.links.find? p.id = none) :
    s.add p = (Except.ok (),
      { templates := s.templates.insert p.template.id p.template,
        links := s.links.insert p.id p }) := by
  simp [PolicySet.add, h1, h2]

theorem add_static_case_tmpl_occupied {s : PolicySet} {p : StaticPolicy} {ex : Template}
    (h1 : s.templates.find? p.id = some ex) :
    s.add_static p = (Except.error (PolicySetError.occupied p.id), s) := by
  simp [PolicySet.add_static, Template.link_static_policy, h1]

theorem add_static_case_link_occupied {s : PolicySet} {p : StaticPolicy} {q : Policy}
    (h1 : s.templates.find? p.id = none) (h2 : s.links.find? p.id = some q) :
    s.add_static p = (Except.error (PolicySetError.occupied p.id), s) := by
  simp [PolicySet.add_static, Template.link_static_policy, h1, h2]

theorem add_static_case_ok {s : PolicySet} {p : StaticPolicy}
    (h1 : s.templates.find? p.id = none) (h2 : s.links.find? p.id = none) :
    s.add_static p = (Except.ok (),
      { templates := s.templates.insert p.id { id := p.id, slots := [], body := p.body },
        links := s.links.insert p.id
          { id := p.id, template := { id := p.id, slots := [], body := p.body },
            env := SlotEnv.empty } }) := by
  simp [PolicySet.add_static, Template.link_static_policy, h1, h2]

theorem add_template_case_occupied {s : PolicySet} {t : Template} {ex : Template}
    (h1 : s.templates.find? t.id = some ex) :
    s.add_template t = (Except.error (PolicySetError.occupied t.id), s) := by
  simp [PolicySet.add_template, h1]

theorem add_template_case_ok {s : PolicySet} {t : Template}
    (h1 : s.templates.find? t.id = none) :
    s.add_template t = (Except.ok (), { s with templates := s.templates.insert t.id t }) := by
  simp [PolicySet.add_template, h1]

theorem link_case_no_template {s : PolicySet} {tid nid : PolicyID} {values : SlotEnv}
    (h1 : s.get_template tid = none) :
    s.link tid nid values = (Except.error (LinkingError.noSuchTemplate tid), s) := by
  simp [PolicySet.link, h1]

theorem link_case_prim_error {s : PolicySet} {tid nid : PolicyID} {values : SlotEnv}
    {t : Template} {e : LinkingError}
    (h1 : s.get_template tid = some t) (h2 : Template.link t nid values = Except.error e) :
    s.link tid nid values = (Except.error e, s) := by
  simp [PolicySet.link, h1, h2]

theorem link_case_conflict_link {s : PolicySet} {tid nid : PolicyID} {values : SlotEnv}
    {t : Template} {r : Policy} {q : Policy}
    (h1 : s.get_template tid = some t) (h2 : Template.link t nid values = Except.ok r)
    (h3 : s.links.find? nid = some q) :
    s.link tid nid values = (Except.error (LinkingError.policyIdConflict nid), s) := by
  simp [PolicySet.link, h1, h2, h3]

theorem link_case_conflict_tmpl {s : PolicySet} {tid nid : PolicyID} {values : SlotEnv}
    {t : Template} {r : Policy} {tx : Template}
    (h1 : s.get_template tid = some t) (h2 : Template.link t nid values = Except.ok r)
    (h3 : s.links.find? nid = none) (h4 : s.templates.find? nid = some tx) :
    s.link tid nid values = (Except.error (LinkingError.policyIdConflict nid), s) := by
  simp [PolicySet.link, h1, h2, h3, h4]

theorem link_case_ok {s : PolicySet} {tid nid : PolicyID} {values : SlotEnv}
    {t : Template} {r : Policy}
    (h1 : s.get_template tid = some t) (h2 : Template.link t nid values = Except.ok r)
    (h3 : s.links.find? nid = none) (h4 : s.templates.find? nid = none) :
    s.link tid nid values = (Except.ok r, { s with links := s.links.insert nid r }) := by
  simp [PolicySet.link, h1, h2, h3, h4]

/-! Atomicity frame lemmas: the state returned alongside an error is the
input state, for each mutating operation. -/

theorem add_error_frame {s : PolicySet} {p : Policy} {e : PolicySetError}
    (h : (s.add p).1 = Except.error e) : (s.add p).2 = s := by
  cases hT : s.templates.find? p.template.id with
  | none =>
    cases hL : s.links.find? p.id with
    | none => rw [add_case_ok_fresh hT hL] at h; exact absurd h (by simp)
    | some q => rw [add_case_link_occupied_fresh hT hL]
  | some ex =>
    by_cases hEq : ex = p.template
    · subst hEq
      cases hL : s.links.find? p.id with
      | none => rw [add_case_ok_present hT hL] at h; exact absurd h (by simp)
      | some q => rw [add_case_link_occupied_present hT hL]
    · rw [add_case_tmpl_diff hT hEq]

theorem add_static_error_frame {s : PolicySet} {p : StaticPolicy} {e : PolicySetError}
    (h : (s.add_static p).1 = Except.error e) : (s.add_static p).2 = s := by
  cases hT : s.templates.find? p.id with
  | none =>
    cases hL : s.links.find? p.id with
    | none => rw [add_static_case_ok hT hL] at h; exact absurd h (by simp)
    | some q => rw [add_static_case_link_occupied hT hL]
  | some ex => rw [add_static_case_tmpl_occupied hT]

theorem add_template_error_frame {s : PolicySet} {t : Template} {e : PolicySetError}
    (h : (s.add_template t).1 = Except.error e) : (s.add_template t).2 = s := by
  cases hT : s.templates.find? t.id with
  | none => rw [add_template_case_ok hT] at h; exact absurd h (by simp)
  | some ex => rw [add_template_case_occupied hT]

theorem link_error_frame {s : PolicySet} {tid nid : PolicyID} {values : SlotEnv}
    {e : LinkingError}
    (h : (s.link tid nid values).1 = Except.error e) : (s.link tid nid values).2 = s := by
  cases hT : s.get_template tid with
  | none => rw [link_case_no_template hT]
  | some t =>
    cases hP : Template.link t nid values with
    | error pe => rw [link_case_prim_error hT hP]
    | ok r =>
      cases hL : s.links.find? nid with
      | some q => rw [link_case_conflict_link hT hP hL]
      | none =>
        cases hT2 : s.templates.find? nid with
        | some tx => rw [link_case_conflict_tmpl hT hP hL hT2]
        | none => rw [link_case_ok hT hP hL hT2] at h; exact absurd h (by simp)

/-! Preservation of the cross-map invariant. -/

theorem pmapFind_cons_preserve {α : Type} {m : List (PolicyID × α)} {k k' : PolicyID}
    {v v' : α} (hfind : pmapFind m k = some v) (hnone : pmapFind m k' = none) :
    pmapFind ((k', v') :: m) k = some v := by
  rw [pmapFind_cons]
  by_cases h : k' = k
  · subst h
    rw [hfind] at hnone
    exact absurd hnone (by simp)
  · simp [h, hfind]

theorem WF_new : PolicySet.new.WF := by
  constructor
  · intro e he
    simp [PolicySet.new] at he
  · intro e he
    simp [PolicySet.new] at he

theorem WF_add {s : PolicySet} (hs : s.WF) (p : Policy) : ((s.add p).2).WF := by
  obtain ⟨hK, hI⟩ := hs
  cases hT : s.templates.find? p.template.id with
  | some ex =>
    by_cases hEq : ex = p.template
    · subst hEq
      cases hL : s.links.find? p.id with
      | some q =>
        rw [add_case_link_occupied_present hT hL]
        exact ⟨hK, hI⟩
      | none =>
        rw [add_case_ok_present hT hL]
        refine ⟨hK, ?_⟩
        intro e he
        simp only [PMap.insert] at he
        rcases List.mem_cons.mp he with rfl | he
        · exact hT
        · exact hI e he
    · rw [add_case_tmpl_diff hT hEq]
      exact ⟨hK, hI⟩
  | none =>
    cases hL : s.links.find? p.id with
    | some q =>
      rw [add_case_link_occupied_fresh hT hL]
      exact ⟨hK, hI⟩
    | none =>
      rw [add_case_ok_fresh hT hL]
      constructor
      · intro e he
        simp only [PMap.insert] at he
        rcases List.mem_cons.mp he with rfl | he
        · rfl
        · exact hK e he
      · intro e he
        simp only [PMap.insert] at he
        rcases List.mem_cons.mp he with rfl | he
        · simp [PMap.find?, PMap.insert, pmapFind_cons]
        · exact pmapFind_cons_preserve (hI e he) hT

theorem WF_add_static {s : PolicySet} (hs : s.WF) (p : StaticPolicy) :
    ((s.add_static p).2).WF := by
  obtain ⟨hK, hI⟩ := hs
  cases hT : s.templates.find? p.id with
  | some ex =>
    rw [add_static_case_tmpl_occupied hT]
    exact ⟨hK, hI⟩
  | none =>
    cases hL : s.links.find? p.id with
    | some q =>
      rw [add_static_case_link_occupied hT hL]
      exact ⟨hK, hI⟩
    | none =>
      rw [add_static_case_ok hT hL]
      constructor
      · intro e he
        simp only [PMap.insert] at he
        rcases List.mem_cons.mp he with rfl | he
        · rfl
        · exact hK e he
      · intro e he
        simp only [PMap.insert] at he
        rcases List.mem_cons.mp he with rfl | he
        · simp [PMap.find?, PMap.insert, pmapFind_cons]
        · exact pmapFind_cons_preserve (hI e he) hT

theorem WF_add_template {s : PolicySet} (hs : s.WF) (t : Template) :
    ((s.add_template t).2).WF := by
  obtain ⟨hK, hI⟩ := hs
  cases hT : s.templates.find? t.id with
  | some ex =>
    rw [add_template_case_occupied hT]
    exact ⟨hK, hI⟩
  | none =>
    rw [add_template_case_ok hT]
    constructor
    · intro e he
      simp only [PMap.insert] at he
      rcases List.mem_cons.mp he with rfl | he
      · rfl
      · exact hK e he
    · intro e he
      exact pmapFind_cons_preserve (hI e he) hT

theorem WF_link {s : PolicySet} (hs : s.WF) (tid nid : PolicyID) (values : SlotEnv) :
    ((s.link tid nid values).2).WF := by
  obtain ⟨hK, hI⟩ := hs
  cases hT : s.get_template tid with
  | none =>
    rw [link_case_no_template hT]
    exact ⟨hK, hI⟩
  | some t =>
    cases hP : Template.link t nid values with
    | error pe =>
      rw [link_case_prim_error hT hP]
      exact ⟨hK, hI⟩
    | ok r =>
      cases hL : s.links.find? nid with
      | some q =>
        rw [link_case_conflict_link hT hP hL]
        exact ⟨hK, hI⟩
      | none =>
        cases hT2 : s.templates.find? nid with
        | some tx =>
          rw [link_case_conflict_tmpl hT hP hL hT2]
          exact ⟨hK, hI⟩
        | none =>
          rw [link_case_ok hT hP hL hT2]
          refine ⟨hK, ?_⟩
          intro e he
          simp only [PMap.insert] at he
          rcases List.mem_cons.mp he with rfl | he
          · have hr := Template.link_ok_shape hP
            subst hr
            have htid : t.id = tid := hK _ (pmapFind_mem hT)
            show s.templates.find? t.id = some t
            rw [htid]
            exact hT
          · exact hI e he

theorem WF_addAll {s s' : PolicySet} {ps : List Policy}
    (hs : s.WF) (h : s.addAll ps = Except.ok s') : s'.WF := by
  induction ps generalizing s with
  | nil =>
    simp [PolicySet.addAll] at h
    exact h ▸ hs
  | cons p rest ih =>
    unfold PolicySet.addAll at h
    cases hA : s.add p with
    | mk res s2 =>
      rw [hA] at h
      cases res with
      | error e => simp at h
      | ok u =>
        have hs2 : s2.WF := by
          have := WF_add hs p
          rw [hA] at this
          exact this
        exact ih hs2 h

theorem WF_try_from_iter {ps : List Policy} {s : PolicySet}
    (h : PolicySet.try_from_iter ps = Except.ok s) : s.WF :=
  WF_addAll WF_new h

/-! Reification lemmas. -/

theorem reify_of_none {lp : LiteralPolicy} {tpls : PMap Template}
    (h : tpls.find? lp.template_id = none) :
    lp.reify tpls = Except.error (ReificationError.noSuchTemplate lp.template_id) := by
  simp [LiteralPolicy.reify, h]

theorem reify_of_some {lp : LiteralPolicy} {tpls : PMap Template} {t : Template}
    (h : tpls.find? lp.template_id = some t) :
    lp.reify tpls = Except.ok { id := lp.id, template := t, env := lp.env } := by
  simp [LiteralPolicy.reify, h]

theorem reifyLinks_inv {tpls : PMap Template}
    (hK : ∀ e ∈ tpls.kvs, (e.2 : Template).id = e.1) :
    ∀ {lks : List (PolicyID × LiteralPolicy)} {out : List (PolicyID × Policy)},
      reifyLinks tpls lks = Except.ok out →
      ∀ e ∈ out, tpls.find? e.2.template.id = some e.2.template := by
  intro lks
  induction lks with
  | nil =>
    intro out h e he
    simp [reifyLinks] at h
    subst h
    simp at he
  | cons hd rest ih =>
    obtain ⟨id, lp⟩ := hd
    intro out h e he
    unfold reifyLinks at h
    cases hF : tpls.find? lp.template_id with
    | none => rw [reify_of_none hF] at h; simp at h
    | some t =>
      rw [reify_of_some hF] at h
      cases hR : reifyLinks tpls rest with
      | error e2 => rw [hR] at h; simp at h
      | ok rest' =>
        rw [hR] at h
        simp only [Except.ok.injEq] at h
        subst h
        rcases List.mem_cons.mp he with rfl | he
        · have htid : t.id = lp.template_id := hK _ (pmapFind_mem hF)
          show tpls.find? t.id = some t
          rw [htid]
          exact hF
        · exact ih hR e he

theorem WF_tryFromLiteral {lit : LiteralPolicySet} {s : PolicySet}
    (hK : ∀ e ∈ lit.templates.kvs, (e.2 : Template).id = e.1)
    (h : PolicySet.tryFromLiteral lit = Except.ok s) : s.WF := by
  unfold PolicySet.tryFromLiteral at h
  cases hR : reifyLinks lit.templates lit.links.kvs with
  | error e => rw [hR] at h; simp at h
  | ok links =>
    rw [hR] at h
    simp only [Except.ok.injEq] at h
    subst h
    exact ⟨hK, reifyLinks_inv hK hR⟩

theorem reifyLinks_roundtrip {tpls : PMap Template} :
    ∀ {lks : List (PolicyID × Policy)},
      (∀ e ∈ lks, tpls.find? e.2.template.id = some e.2.template) →
      reifyLinks tpls (lks.map fun e => (e.1, e.2.toLiteral)) = Except.ok lks := by
  intro lks
  induction lks with
  | nil =>
    intro _
    simp [reifyLinks]
  | cons hd rest ih =>
    obtain ⟨id, p⟩ := hd
    intro h
    have hhd : tpls.find? p.template.id = some p.template :=
      h (id, p) (List.mem_cons_self _ _)
    have hrest := ih (fun e he => h e (List.mem_cons_of_mem _ he))
    simp only [List.map_cons]
    unfold reifyLinks
    have hfind : tpls.find? p.toLiteral.template_id = some p.template := hhd
    rw [reify_of_some hfind, hrest]
    rfl

theorem tryFromLiteral_toLiteral {s : PolicySet} (hI : s.Inv) :
    PolicySet.tryFromLiteral s.toLiteral = Except.ok s := by
  unfold PolicySet.tryFromLiteral PolicySet.toLiteral
  rw [reifyLinks_roundtrip hI]

theorem reifyLinks_ok_of_resolved {tpls : PMap Template} :
    ∀ {lks : List (PolicyID × LiteralPolicy)},
      (∀ e ∈ lks, (tpls.find? e.2.template_id).isSome) →
      ∃ out, reifyLinks tpls lks = Except.ok out := by
  intro lks
  induction lks with
  | nil =>
    intro _
    exact ⟨[], rfl⟩
  | cons hd rest ih =>
    obtain ⟨id, lp⟩ := hd
    intro h
    have hhd : (tpls.find? lp.template_id).isSome := h (id, lp) (List.mem_cons_self _ _)
    obtain ⟨t, ht⟩ := Option.isSome_iff_exists.mp hhd
    obtain ⟨out, hout⟩ := ih (fun e he => h e (List.mem_cons_of_mem _ he))
    refine ⟨(id, { id := lp.id, template := t, env := lp.env }) :: out, ?_⟩
    unfold reifyLinks
    rw [reify_of_some ht, hout]

theorem reifyLinks_error_of_dangling {tpls : PMap Template} :
    ∀ {lks : List (PolicyID × LiteralPolicy)},
      (∃ e ∈ lks, tpls.find? e.2.template_id = none) →
      ∃ tid, reifyLinks tpls lks = Except.error (ReificationError.noSuchTemplate tid) ∧
        ∃ e ∈ lks, e.2.template_id = tid ∧ tpls.find? tid = none := by
  intro lks
  induction lks with
  | nil =>
    intro h
    simp at h
  | cons hd rest ih =>
    obtain ⟨id, lp⟩ := hd
    intro h
    cases hF : tpls.find? lp.template_id with
    | none =>
      refine ⟨lp.template_id, ?_, (id, lp), List.mem_cons_self _ _, rfl, hF⟩
      unfold reifyLinks
      rw [reify_of_none hF]
    | some t =>
      have hrest : ∃ e ∈ rest, tpls.find? e.2.template_id = none := by
        obtain ⟨e, he, hnone⟩ := h
        rcases List.mem_cons.mp he with rfl | he
        · rw [hF] at hnone
          exact absurd hnone (by simp)
        · exact ⟨e, he, hnone⟩
      obtain ⟨tid, herr, e, he, htid, hnone⟩ := ih hrest
      refine ⟨tid, ?_, e, List.mem_cons_of_mem _ he, htid, hnone⟩
      unfold reifyLinks
      rw [reify_of_some hF, herr]

/-! Claim theorems. -/

/-- Claim C2: atomicity.  For every mutating operation (`add`, `add_static`,
`add_template`, `link`), whenever the operation returns an error, the
resulting state equals the input state.  Since the queries (`policies`,
`all_templates`, `slotted_templates`, `static_policies`, `get`,
`get_template`, `is_empty`) are pure functions of the state, equality of
states gives identical observable behaviour through every query. -/
theorem c2_atomicity :
    (∀ (s : PolicySet) (p : Policy) (e : PolicySetError),
      (s.add p).1 = Except.error e → (s.add p).2 = s) ∧
    (∀ (s : PolicySet) (p : StaticPolicy) (e : PolicySetError),
      (s.add_static p).1 = Except.error e → (s.add_static p).2 = s) ∧
    (∀ (s : PolicySet) (t : Template) (e : PolicySetError),
      (s.add_template t).1 = Except.error e → (s.add_template t).2 = s) ∧
    (∀ (s : PolicySet) (tid nid : PolicyID) (values : SlotEnv) (e : LinkingError),
      (s.link tid nid values).1 = Except.error e → (s.link tid nid values).2 = s) :=
  ⟨fun _ _ _ h => add_error_frame h,
   fun _ _ _ h => add_static_error_frame h,
   fun _ _ _ h => add_template_error_frame h,
   fun _ _ _ _ _ h => link_error_frame h⟩

/-- Witness for C2: each operation taken at a concrete erroring input leaves
the concrete set unchanged. -/
theorem c2_atomicity_witness :
    (exSet1.add exPol0).2 = exSet1 ∧
    (exSet1.add_static { id := "t0", body := 0 }).2 = exSet1 ∧
    (exSet1.add_template exTmpl0).2 = exSet1 ∧
    (exSet1.link "missing" "x" SlotEnv.empty).2 = exSet1 :=
  ⟨c2_atomicity.1 exSet1 exPol0 (PolicySetError.occupied "l0") rfl,
   c2_atomicity.2.1 exSet1 { id := "t0", body := 0 } (PolicySetError.occupied "t0") rfl,
   c2_atomicity.2.2.1 exSet1 exTmpl0 (PolicySetError.occupied "t0") rfl,
   c2_atomicity.2.2.2 exSet1 "missing" "x" SlotEnv.empty
     (LinkingError.noSuchTemplate "missing") rfl⟩

/-- Claim C3: round-trip.  For every `PolicySet` satisfying the cross-map
invariant, converting it to its literal form and reifying back succeeds and
returns the very same set (same template entries, same link entries, same
ids). -/
theorem c3_round_trip (s : PolicySet) (h : s.Inv) :
    PolicySet.tryFromLiteral s.toLiteral = Except.ok s :=
  tryFromLiteral_toLiteral h

/-- Witness for C3: the round trip at a concrete valid set. -/
theorem c3_round_trip_witness :
    exSet1.Inv ∧ PolicySet.tryFromLiteral exSet1.toLiteral = Except.ok exSet1 :=
  ⟨by decide, c3_round_trip exSet1 (by decide)⟩

/-- Claim C4: reification rejects dangling links.  If some link of the
literal set references a template id missing from its template map, the
conversion fails with a `ReificationError` naming a missing template id of a
dangling link (the map iteration order of the source picks which dangling
link is reported when several exist); conversely, when every link resolves,
the conversion succeeds.  No partial set exists in the failure case, since
the conversion returns only the error. -/
theorem c4_reify_dangling (lit : LiteralPolicySet) :
    ((∃ e ∈ lit.links.kvs, lit.templates.find? e.2.template_id = none) →
      ∃ tid, PolicySet.tryFromLiteral lit =
          Except.error (ReificationError.noSuchTemplate tid) ∧
        ∃ e ∈ lit.links.kvs, e.2.template_id = tid ∧ lit.templates.find? tid = none) ∧
    ((∀ e ∈ lit.links.kvs, (lit.templates.find? e.2.template_id).isSome) →
      ∃ s, PolicySet.tryFromLiteral lit = Except.ok s) := by
  constructor
  · intro h
    obtain ⟨tid, herr, e, he, htid, hnone⟩ := reifyLinks_error_of_dangling h
    refine ⟨tid, ?_, e, he, htid, hnone⟩
    unfold PolicySet.tryFromLiteral
    rw [herr]
  · intro h
    obtain ⟨out, hout⟩ := reifyLinks_ok_of_resolved h
    refine ⟨{ templates := lit.templates, links := ⟨out⟩ }, ?_⟩
    unfold PolicySet.tryFromLiteral
    rw [hout]

/-- Witness for C4: a concrete dangling literal set fails and a concrete
resolved literal set succeeds. -/
theorem c4_reify_dangling_witness :
    (∃ tid, PolicySet.tryFromLiteral exLitDangling =
        Except.error (ReificationError.noSuchTemplate tid) ∧
      ∃ e ∈ exLitDangling.links.kvs,
        e.2.template_id = tid ∧ exLitDangling.templates.find? tid = none) ∧
    (∃ s, PolicySet.tryFromLiteral exLitGood = Except.ok s) :=
  ⟨(c4_reify_dangling exLitDangling).1 (by decide),
   (c4_reify_dangling exLitGood).2 (by decide)⟩

/-- Claim C1, counterexample to the claim as stated: reification from a
`LiteralPolicySet` is listed among the operations after which the cross-map
invariant holds, but reification only checks that each link's `template_id`
is a key of the template map — it never compares a template map key against
the id stored inside the template.  On `exLitMiskeyed` (template with id `b`
stored under key `a`, one link referencing key `a`) the conversion succeeds,
yet the resulting set stores a link whose template id `b` is not a key of the
template map, violating the invariant. -/
theorem c1_cross_map_counterexample :
    ∃ s, PolicySet.tryFromLiteral exLitMiskeyed = Except.ok s ∧ ¬ s.Inv :=
  ⟨{ templates := ⟨[("a", { id := "b", slots := [], body := 0 })]⟩,
     links := ⟨[("l",
       { id := "l", template := { id := "b", slots := [], body := 0 },
         env := SlotEnv.empty })]⟩ },
   rfl, by decide⟩

/-- Claim C1 (amended): the empty set is well formed, every mutating
operation (`add`, `add_static`, `add_template`, `link`) preserves
well-formedness whatever its outcome, `try_from_iter` establishes it, and
reification establishes it for every literal set whose template entries are
keyed by their stored template's own id; well-formedness contains the
claimed cross-map invariant (for every `(id, policy)` in `links`, `templates`
holds `policy.template.id` with content identical to `policy.template`). -/
theorem c1_cross_map_invariant :
    PolicySet.new.WF ∧
    (∀ (s : PolicySet) (p : Policy), s.WF → ((s.add p).2).WF) ∧
    (∀ (s : PolicySet) (p : StaticPolicy), s.WF → ((s.add_static p).2).WF) ∧
    (∀ (s : PolicySet) (t : Template), s.WF → ((s.add_template t).2).WF) ∧
    (∀ (s : PolicySet) (tid nid : PolicyID) (values : SlotEnv),
      s.WF → ((s.link tid nid values).2).WF) ∧
    (∀ (ps : List Policy) (s : PolicySet),
      PolicySet.try_from_iter ps = Except.ok s → s.WF) ∧
    (∀ (lit : LiteralPolicySet) (s : PolicySet),
      (∀ e ∈ lit.templates.kvs, (e.2 : Template).id = e.1) →
      PolicySet.tryFromLiteral lit = Except.ok s → s.WF) ∧
    (∀ s : PolicySet, s.WF → s.Inv) :=
  ⟨WF_new,
   fun _ p h => WF_add h p,
   fun _ p h => WF_add_static h p,
   fun _ t h => WF_add_template h t,
   fun _ tid nid values h => WF_link h tid nid values,
   fun _ _ h => WF_try_from_iter h,
   fun _ _ hK h => WF_tryFromLiteral hK h,
   fun _ h => h.2⟩

/-- Witness for C1: the preservation and establishment statements
instantiated at concrete sets and inputs. -/
theorem c1_cross_map_invariant_witness :
    ((PolicySet.new.add exPol0).2).WF ∧
    ((PolicySet.new.add_static { id := "t0", body := 0 }).2).WF ∧
    ((exSet1.add_template exTmplP).2).WF ∧
    ((exSetT0.link "t0" "l1" SlotEnv.empty).2).WF ∧
    exSet1.WF ∧
    PolicySet.new.Inv :=
  ⟨c1_cross_map_invariant.2.1 PolicySet.new exPol0 (by decide),
   c1_cross_map_invariant.2.2.1 PolicySet.new { id := "t0", body := 0 } (by decide),
   c1_cross_map_invariant.2.2.2.1 exSet1 exTmplP (by decide),
   c1_cross_map_invariant.2.2.2.2.1 exSetT0 "t0" "l1" SlotEnv.empty (by decide),
   c1_cross_map_invariant.2.2.2.2.2.2.1 exLitGood exSet1 (by decide) rfl,
   c1_cross_map_invariant.2.2.2.2.2.2.2 PolicySet.new c1_cross_map_invariant.1⟩

/-- Claim C5: the functional specification of `add`.  With `t` the added
policy's template: a template entry occupied by different content fails with
`Occupied` at the template id and mutates nothing; an identical template
entry is left untouched and the operation proceeds to the link check; an
occupied link entry (regardless of content, so also for re-adding the very
same policy) fails with `Occupied` at the policy id and mutates nothing;
otherwise the operation succeeds, inserting the template exactly when it was
absent, and inserting the link. -/
theorem c5_add_spec (s : PolicySet) (p : Policy) :
    (∀ ex, s.templates.find? p.template.id = some ex → ex ≠ p.template →
      s.add p = (Except.error (PolicySetError.occupied p.template.id), s)) ∧
    (s.templates.find? p.template.id = some p.template →
      (∀ q, s.links.find? p.id = some q →
        s.add p = (Except.error (PolicySetError.occupied p.id), s)) ∧
      (s.links.find? p.id = none →
        s.add p = (Except.ok (), { s with links := s.links.insert p.id p }))) ∧
    (s.templates.find? p.template.id = none →
      (∀ q, s.links.find? p.id = some q →
        s.add p = (Except.error (PolicySetError.occupied p.id), s)) ∧
      (s.links.find? p.id = none →
        s.add p = (Except.ok (),
          { templates := s.templates.insert p.template.id p.template,
            links := s.links.insert p.id p }))) :=
  ⟨fun _ h1 h2 => add_case_tmpl_diff h1 h2,
   fun h1 => ⟨fun _ h2 => add_case_link_occupied_present h1 h2,
              fun h2 => add_case_ok_present h1 h2⟩,
   fun h1 => ⟨fun _ h2 => add_case_link_occupied_fresh h1 h2,
              fun h2 => add_case_ok_fresh h1 h2⟩⟩

/-- Witness for C5: the four branches of `add` at concrete inputs —
conflicting template content, idempotent re-add of the same policy,
fresh insertion, and insertion alongside an identical existing template. -/
theorem c5_add_spec_witness :
    exSet1.add { id := "l9", template := exTmpl0', env := SlotEnv.empty } =
      (Except.error (PolicySetError.occupied "t0"), exSet1) ∧
    exSet1.add exPol0 = (Except.error (PolicySetError.occupied "l0"), exSet1) ∧
    PolicySet.new.add exPol0 = (Except.ok (), exSet1) ∧
    exSetT0.add exPol0 = (Except.ok (), exSet1) :=
  ⟨(c5_add_spec exSet1 { id := "l9", template := exTmpl0', env := SlotEnv.empty }).1
      exTmpl0 rfl (by decide),
   (c5_add_spec exSet1 exPol0).2.1 rfl |>.1 exPol0 rfl,
   (c5_add_spec PolicySet.new exPol0).2.2 rfl |>.2 rfl,
   (c5_add_spec exSetT0 exPol0).2.1 rfl |>.2 rfl⟩

/-- Claim C6: the functional specification of `link`.  A missing template id
fails with `NoSuchTemplate` at that id; an error of the template-linking
primitive is propagated unchanged; an occupied `new_id` in either the link
map or the template map (so also when `new_id` equals an existing template
id, such as a static policy id) fails with `PolicyIdConflict` at `new_id`
with no mutation; otherwise the produced policy is inserted into the link
map only and returned, and it is the stored link. -/
theorem c6_link_spec (s : PolicySet) (tid nid : PolicyID) (values : SlotEnv) :
    (s.get_template tid = none →
      s.link tid nid values = (Except.error (LinkingError.noSuchTemplate tid), s)) ∧
    (∀ t, s.get_template tid = some t →
      (∀ e, Template.link t nid values = Except.error e →
        s.link tid nid values = (Except.error e, s)) ∧
      (∀ r, Template.link t nid values = Except.ok r →
        ((s.links.find? nid ≠ none ∨ s.templates.find? nid ≠ none) →
          s.link tid nid values =
            (Except.error (LinkingError.policyIdConflict nid), s)) ∧
        (s.links.find? nid = none → s.templates.find? nid = none →
          s.link tid nid values =
            (Except.ok r, { s with links := s.links.insert nid r }) ∧
          ({ s with links := s.links.insert nid r } : PolicySet).get nid = some r))) := by
  refine ⟨fun h1 => link_case_no_template h1,
          fun t h1 => ⟨fun e h2 => link_case_prim_error h1 h2,
                       fun r h2 => ⟨?_, fun h3 h4 => ⟨link_case_ok h1 h2 h3 h4, ?_⟩⟩⟩⟩
  · intro hocc
    cases hL : s.links.find? nid with
    | some q => exact link_case_conflict_link h1 h2 hL
    | none =>
      cases hT2 : s.templates.find? nid with
      | some tx => exact link_case_conflict_tmpl h1 h2 hL hT2
      | none =>
        rcases hocc with hocc | hocc
        · exact absurd hL hocc
        · exact absurd hT2 hocc
  · simp [PolicySet.get, PMap.find?, PMap.insert, pmapFind_cons]

/-- Witness for C6: the four branches of `link` at concrete inputs — missing
template, slot mismatch propagated unchanged, id conflict with an existing
link, and a successful link stored in the link map. -/
theorem c6_link_spec_witness :
    PolicySet.new.link "t" "l" SlotEnv.empty =
      (Except.error (LinkingError.noSuchTemplate "t"), PolicySet.new) ∧
    exSetP.link "tp" "l" SlotEnv.empty =
      (Except.error LinkingError.slotMismatch, exSetP) ∧
    exSet1.link "t0" "l0" SlotEnv.empty =
      (Except.error (LinkingError.policyIdConflict "l0"), exSet1) ∧
    (exSetT0.link "t0" "l1" SlotEnv.empty =
      (Except.ok { id := "l1", template := exTmpl0, env := SlotEnv.empty },
       { templates := ⟨[("t0", exTmpl0)]⟩,
         links := ⟨[("l1", { id := "l1", template := exTmpl0, env := SlotEnv.empty })]⟩ }) ∧
     ({ templates := ⟨[("t0", exTmpl0)]⟩,
        links := ⟨[("l1", { id := "l1", template := exTmpl0, env := SlotEnv.empty })]⟩ }
          : PolicySet).get "l1" =
       some { id := "l1", template := exTmpl0, env := SlotEnv.empty }) :=
  ⟨(c6_link_spec PolicySet.new "t" "l" SlotEnv.empty).1 rfl,
   ((c6_link_spec exSetP "tp" "l" SlotEnv.empty).2 exTmplP rfl).1
     LinkingError.slotMismatch rfl,
   (((c6_link_spec exSet1 "t0" "l0" SlotEnv.empty).2 exTmpl0 rfl).2 exPol0 rfl).1
     (Or.inl (by decide)),
   (((c6_link_spec exSetT0 "t0" "l1" SlotEnv.empty).2 exTmpl0 rfl).2
     { id := "l1", template := exTmpl0, env := SlotEnv.empty } rfl).2 rfl rfl⟩

/-- Claim C7: the specification of `add_static` and static-policy duality.
If either map is occupied at the policy id, `add_static` fails with
`Occupied` at that id (the template map is consulted first in the source;
both arms report the same id) and mutates nothing.  On success it inserts
the zero-slot template and the empty-environment link, both keyed by the
policy id: afterwards `get_template` finds the zero-slot template, `get`
finds the empty-environment link, and `static_policies` contains an entry
with that id. -/
theorem c7_add_static_spec (s : PolicySet) (p : StaticPolicy) :
    ((s.templates.find? p.id ≠ none ∨ s.links.find? p.id ≠ none) →
      s.add_static p = (Except.error (PolicySetError.occupied p.id), s)) ∧
    (s.templates.find? p.id = none → s.links.find? p.id = none →
      (s.add_static p).1 = Except.ok () ∧
      ((s.add_static p).2).get_template p.id =
        some { id := p.id, slots := [], body := p.body } ∧
      ({ id := p.id, slots := [], body := p.body } : Template).slots.length = 0 ∧
      ((s.add_static p).2).get p.id =
        some { id := p.id, template := { id := p.id, slots := [], body := p.body },
               env := SlotEnv.empty } ∧
      SlotEnv.isEmpty SlotEnv.empty = true ∧
      (∃ q ∈ ((s.add_static p).2).static_policies, q.id = p.id)) := by
  constructor
  · intro hocc
    cases hT : s.templates.find? p.id with
    | some ex => exact add_static_case_tmpl_occupied hT
    | none =>
      cases hL : s.links.find? p.id with
      | some q => exact add_static_case_link_occupied hT hL
      | none =>
        rcases hocc with hocc | hocc
        · exact absurd hT hocc
        · exact absurd hL hocc
  · intro h1 h2
    rw [add_static_case_ok h1 h2]
    refine ⟨rfl, ?_, rfl, ?_, rfl, ?_⟩
    · simp [PolicySet.get_template, PMap.find?, PMap.insert, pmapFind_cons]
    · simp [PolicySet.get, PMap.find?, PMap.insert, pmapFind_cons]
    · refine ⟨{ id := p.id, template := { id := p.id, slots := [], body := p.body },
                env := SlotEnv.empty }, ?_, rfl⟩
      refine List.mem_filter.mpr ⟨?_, rfl⟩
      simp [PolicySet.policies, PMap.values, PMap.insert]

/-- Witness for C7: a successful `add_static` on the empty set and a failing
one on a set already holding the id. -/
theorem c7_add_static_spec_witness :
    ((PolicySet.new.add_static { id := "t0", body := 0 }).1 = Except.ok () ∧
     ((PolicySet.new.add_static { id := "t0", body := 0 }).2).get_template "t0" =
       some exTmpl0 ∧
     ((PolicySet.new.add_static { id := "t0", body := 0 }).2).get "t0" =
       some { id := "t0", template := exTmpl0, env := SlotEnv.empty } ∧
     (∃ q ∈ ((PolicySet.new.add_static { id := "t0", body := 0 }).2).static_policies,
       q.id = "t0")) ∧
    exSet1.add_static { id := "t0", body := 5 } =
      (Except.error (PolicySetError.occupied "t0"), exSet1) := by
  have h := (c7_add_static_spec PolicySet.new { id := "t0", body := 0 }).2 rfl rfl
  exact ⟨⟨h.1, h.2.1, h.2.2.2.1, h.2.2.2.2.2⟩,
    (c7_add_static_spec exSet1 { id := "t0", body := 5 }).1 (Or.inl (by decide))⟩

/-- Claim C8: linking a zero-slot template with the empty environment at a
fresh id succeeds, the stored link is static, and its id is a key of the
link map only — `get_template` at the link id stays absent — so
`static_policies` can contain entries whose id is not a template map key:
the static-policy pairing of companion entries is guaranteed only for
entries created by `add_static`, not for every empty-environment link. -/
theorem c8_zero_slot_link (s : PolicySet) (tid lid : PolicyID) (t : Template)
    (h1 : s.templates.find? tid = some t) (h2 : t.slots = [])
    (h3 : s.links.find? lid = none) (h4 : s.templates.find? lid = none) :
    s.link tid lid SlotEnv.empty =
      (Except.ok { id := lid, template := t, env := SlotEnv.empty },
       ⟨s.templates, s.links.insert lid ⟨lid, t, SlotEnv.empty⟩⟩) ∧
    ((s.link tid lid SlotEnv.empty).2).get lid =
      some { id := lid, template := t, env := SlotEnv.empty } ∧
    Policy.is_static { id := lid, template := t, env := SlotEnv.empty } = true ∧
    ((s.link tid lid SlotEnv.empty).2).get_template lid = none ∧
    (∃ q ∈ ((s.link tid lid SlotEnv.empty).2).static_policies, q.id = lid) := by
  have hm : SlotEnv.matchesSlots SlotEnv.empty t.slots := by
    rw [h2]
    intro sl
    simp [SlotEnv.empty]
  have hP := @Template.link_ok_of_matches t lid SlotEnv.empty hm
  have hmain := link_case_ok h1 hP h3 h4
  rw [hmain]
  refine ⟨rfl, ?_, rfl, ?_, ?_⟩
  · simp [PolicySet.get, PMap.find?, PMap.insert, pmapFind_cons]
  · exact h4
  · refine ⟨{ id := lid, template := t, env := SlotEnv.empty }, ?_, rfl⟩
    refine List.mem_filter.mpr ⟨?_, rfl⟩
    simp [PolicySet.policies, PMap.values, PMap.insert]

/-- Witness for C8: the zero-slot template `t0` linked at fresh id `l1`. -/
theorem c8_zero_slot_link_witness :
    exSetT0.templates.find? "t0" = some exTmpl0 ∧
    exTmpl0.slots = [] ∧
    ((exSetT0.link "t0" "l1" SlotEnv.empty).2).get "l1" =
      some { id := "l1", template := exTmpl0, env := SlotEnv.empty } ∧
    ((exSetT0.link "t0" "l1" SlotEnv.empty).2).get_template "l1" = none ∧
    (∃ q ∈ ((exSetT0.link "t0" "l1" SlotEnv.empty).2).static_policies, q.id = "l1") := by
  have h := c8_zero_slot_link exSetT0 "t0" "l1" exTmpl0 rfl rfl rfl rfl
  exact ⟨rfl, rfl, h.2.1, h.2.2.2.1, h.2.2.2.2⟩

/-- Claim C9: `add_template` consults only the template map.  When the
template id is absent from the template map, it succeeds and inserts the
template even if the id is a key of the link map, and the link map — hence
any existing link at that id — is left unchanged; when the template id is a
template map key, it fails with `Occupied` at that id with no mutation. -/
theorem c9_add_template_spec (s : PolicySet) (t : Template) :
    (s.templates.find? t.id = none →
      s.add_template t =
        (Except.ok (), { s with templates := s.templates.insert t.id t }) ∧
      ((s.add_template t).2).links = s.links) ∧
    (∀ ex, s.templates.find? t.id = some ex →
      s.add_template t = (Except.error (PolicySetError.occupied t.id), s)) :=
  ⟨fun h1 => ⟨add_template_case_ok h1, by rw [add_template_case_ok h1]⟩,
   fun _ h1 => add_template_case_occupied h1⟩

/-- Witness for C9: adding a template whose id is already a link map key
succeeds and leaves the link untouched; re-adding an existing template id
fails. -/
theorem c9_add_template_spec_witness :
    (exSetLinkAtT0.add_template exTmpl0 =
      (Except.ok (),
       { templates := ⟨[("t0", exTmpl0)]⟩, links := exSetLinkAtT0.links }) ∧
     ((exSetLinkAtT0.add_template exTmpl0).2).links = exSetLinkAtT0.links) ∧
    exSetT0.add_template exTmpl0' =
      (Except.error (PolicySetError.occupied "t0"), exSetT0) :=
  ⟨(c9_add_template_spec exSetLinkAtT0 exTmpl0).1 rfl,
   (c9_add_template_spec exSetT0 exTmpl0').2 exTmpl0 rfl⟩

/-- Claim C10: `add` checks the template map before the link map, so when a
different-content template conflict and a link-id conflict hold at the same
time with distinct ids, the reported error carries the template id, not the
policy id. -/
theorem c10_add_checks_template_first (s : PolicySet) (p : Policy) (ex : Template)
    (q : Policy)
    (h1 : s.templates.find? p.template.id = some ex) (h2 : ex ≠ p.template)
    (_h3 : s.links.find? p.id = some q) (h4 : p.template.id ≠ p.id) :
    (s.add p).1 = Except.error (PolicySetError.occupied p.template.id) ∧
    (s.add p).1 ≠ Except.error (PolicySetError.occupied p.id) := by
  rw [add_case_tmpl_diff h1 h2]
  refine ⟨rfl, ?_⟩
  intro hc
  simp only [Except.error.injEq, PolicySetError.occupied.injEq] at hc
  exact h4 hc

/-- Witness for C10: both conflicts at once; the error names the template
id `t0`, not the link id `l0`. -/
theorem c10_add_checks_template_first_witness :
    (exSet1.add { id := "l0", template := exTmpl0', env := SlotEnv.empty }).1 =
      Except.error (PolicySetError.occupied "t0") ∧
    (exSet1.add { id := "l0", template := exTmpl0', env := SlotEnv.empty }).1 ≠
      Except.error (PolicySetError.occupied "l0") :=
  c10_add_checks_template_first exSet1
    { id := "l0", template := exTmpl0', env := SlotEnv.empty } exTmpl0 exPol0
    rfl (by decide) rfl (by decide)
